import Mathlib

/-!
Shallow embedding of the SIIS-SPT compliance-tracking server (`src/main.py`).

The server is a FastAPI application over two Firestore collections
(`recommendations` and `submissions`) plus a `users` profile collection.
External collaborators (Firebase token verification, Cloud Storage, the
Vertex AI text generator) are modelled by explicit parameters carrying the
outcome of the external call; HTTP error responses are modelled by the
numeric status code the handler raises (`Except Nat`).  Every endpoint is
embedded as a function from its inputs and the backing `Store` to a result
paired with the resulting `Store`, so that store mutation (or its absence)
is visible in the embedding.
-/

namespace SIIS

/-- Recommendation document as stored under `public/data/recommendations`
in `src/main.py`: the listing and the report read `id`, `institution` and
`progress`; `status` is the derived label field. -/
structure Recommendation where
  id : String
  institution : String
  description : String
  progress : Nat
  status : String
  deriving Repr, DecidableEq

/-- Submission document with exactly the fields `upload_evidence` writes
(`sub_ref.set` in `src/main.py`); the Firestore server timestamp is
modelled as a `Nat`. -/
structure Submission where
  id : String
  recommendation_id : String
  submitted_by : String
  description : String
  file_url : String
  status : String
  timestamp : Nat
  deriving Repr, DecidableEq

/-- Profile document in the `users` collection, as read by
`get_current_user` in `src/main.py` (keys `role`, `inst_slug`,
`institution`, `email`). -/
structure UserDoc where
  email : String
  role : String
  inst_slug : String
  institution : String
  deriving Repr, DecidableEq

/-- Admin flag exactly as computed in `get_current_user`:
`user_data.get("role") == "admin" or user_data.get("inst_slug") == "all"`. -/
def is_admin (u : UserDoc) : Bool :=
  u.role == "admin" || u.inst_slug == "all"

/-- Backing document store: the `recommendations` collection and the
`submissions` collection. -/
structure Store where
  recommendations : List Recommendation
  submissions : List Submission
  deriving Repr, DecidableEq

/-- Lower-casing of a string, the semantics of Python's `str.lower()`
restricted to the ASCII range: each character is mapped through
`Char.toLower`.  (Defined through the character list rather than
`String.map` so that concrete instances reduce inside the kernel.) -/
def pyLower (s : String) : String :=
  String.mk (s.data.map Char.toLower)

/-- Boolean test for Python's `s.startswith(pre)`. -/
def pyStartsWith (s pre : String) : Bool :=
  pre.data.isPrefixOf s.data

/-- Boolean substring test on character lists, the semantics of Python's
`needle in haystack` on strings: true iff `need` occurs contiguously in
`hay`.  In particular `containsList [] hay = true`, matching Python, where
the empty string is a substring of every string. -/
def containsList (need : List Char) : List Char → Bool
  | [] => need.isEmpty
  | c :: t => need.isPrefixOf (c :: t) || containsList need t

/-- String form of `containsList`: Python's `need in hay`. -/
def strContains (hay need : String) : Bool :=
  containsList need.data hay.data

/-- Outcome of `auth.verify_id_token` as seen by `get_current_user`:
either a verified email or a failure. -/
inductive TokenCheck where
  | valid (email : String)
  | invalid
  deriving Repr, DecidableEq

/-- Profile lookup in the `users` collection keyed by email. -/
def lookupUser (users : List (String × UserDoc)) (email : String) : Option UserDoc :=
  (users.find? (fun p => p.1 == email)).map Prod.snd

/-- Embedding of `get_current_user` in `src/main.py`.  The handler first
rejects a missing or non-`Bearer` header with 401.  Everything after that
runs inside a `try` block whose `except Exception` clause re-raises 401
(`Token inválido`).  Because FastAPI's `HTTPException` subclasses
`Exception`, the `raise HTTPException(403, "Usuario no registrado en
Firestore")` issued when the profile document is missing is itself caught
by that clause, so the observable response in the missing-profile case is
401, not 403. -/
def get_current_user (authHeader : Option String) (tok : TokenCheck)
    (users : List (String × UserDoc)) : Except Nat UserDoc :=
  match authHeader with
  | none => Except.error 401
  | some h =>
    if pyStartsWith h "Bearer " then
      match tok with
      | TokenCheck.invalid => Except.error 401
      | TokenCheck.valid email =>
        match lookupUser users email with
        | none => Except.error 401
        | some u => Except.ok u
    else Except.error 401

/-- Embedding of the `/api/auth/me` handler: returns the caller's email,
institution, admin flag and role; touches no collection. -/
def auth_me (user : UserDoc) (st : Store) :
    (String × String × Bool × String) × Store :=
  ((user.email, user.institution, is_admin user, user.role), st)

/-- Embedding of the `/api/recommendations` handler
(`list_recommendations` in `src/main.py`): admins receive the whole
collection; otherwise the handler keeps every recommendation whose
lower-cased `institution` contains the caller's lower-cased `inst_slug`
as a substring (Python `slug in institution.lower()`). -/
def list_recommendations (user : UserDoc) (st : Store) :
    List Recommendation × Store :=
  if is_admin user then (st.recommendations, st)
  else
    let slug := pyLower user.inst_slug
    (st.recommendations.filter (fun r => strContains (pyLower r.institution) slug), st)

/-- Outcome of the Vertex AI `generate_content` call in `analyze_barrier`. -/
inductive GenResult where
  | ok (text : String)
  | failed
  deriving Repr, DecidableEq

/-- Embedding of the `/api/ai/analyze` handler (`analyze_barrier` in
`src/main.py`).  An empty model name raises a `ValueError`, and a failed
generation call raises; both land in the `except` clause, which responds
500.  On success the handler returns the raw response text
(`{"analysis": response.text}`) without any parsing.  No collection is
read or written. -/
def analyze_barrier (modelName : String) (text : String) (gen : GenResult)
    (st : Store) : Except Nat String × Store :=
  if modelName == "" then (Except.error 500, st)
  else
    match gen with
    | GenResult.ok t => (Except.ok t, st)
    | GenResult.failed => (Except.error 500, st)

/-- Outcome of the Cloud Storage upload (`blob.upload_from_file`) in
`upload_evidence`: the blob's public URL, or a raised exception. -/
inductive StorageResult where
  | ok (publicUrl : String)
  | failed
  deriving Repr, DecidableEq

/-- Embedding of the `/api/evidence/upload` handler (`upload_evidence` in
`src/main.py`).  The storage upload is issued first; if it raises, the
`except` clause responds 500 and the Firestore write is never reached.  On
success a new submission document is created with the fields written by
`sub_ref.set`, status `PENDIENTE`; the handler performs no existence check
on `recommendation_id`. -/
def upload_evidence (recommendation_id : String) (description : String)
    (filename : String) (user : UserDoc) (stg : StorageResult)
    (newId : String) (now : Nat) (st : Store) : Except Nat String × Store :=
  match stg with
  | StorageResult.failed => (Except.error 500, st)
  | StorageResult.ok url =>
    let sub : Submission :=
      { id := newId
        recommendation_id := recommendation_id
        submitted_by := user.email
        description := description
        file_url := url
        status := "PENDIENTE"
        timestamp := now }
    (Except.ok "Evidencia subida correctamente",
      { st with submissions := st.submissions ++ [sub] })

/-- Embedding of the `/api/admin/pending` handler (`list_pending` in
`src/main.py`): 403 for non-admins; for admins, the documents of the
`submissions` collection whose `status` equals `PENDIENTE`, returned as
stored, with no join against the `recommendations` collection. -/
def list_pending (user : UserDoc) (st : Store) :
    Except Nat (List Submission) × Store :=
  if is_admin user then
    (Except.ok (st.submissions.filter (fun s => s.status == "PENDIENTE")), st)
  else (Except.error 403, st)

/-- Embedding of the `/api/report/generate` handler (`generate_pdf` in
`src/main.py`), reduced to the text drawn on the PDF canvas: a title line,
then for every document of the `recommendations` collection a
`[id] institution` line and an `Avance: progress%` line.  The handler
requires an authenticated caller but never consults the caller's admin
flag or slug: the whole collection is rendered for every caller. -/
def generate_pdf (user : UserDoc) (st : Store) : List String × Store :=
  (["SIIS-SPT: Informe de Cumplimiento"] ++
    st.recommendations.flatMap (fun d =>
      ["[" ++ d.id ++ "] " ++ d.institution,
       "Avance: " ++ toString d.progress ++ "%"]), st)

/-- Status label as a function of progress, following the data-model rule
(0 maps to Pending, 1 to 99 to In Progress, 100 to Completed). -/
def statusOf (p : Nat) : String :=
  if p = 0 then "Pending"
  else if p < 100 then "In Progress"
  else "Completed"

/-- Modelled from the spec: the Review/Approval Engine's
`approve(submission_id, approved_progress, principal)` operation (spec
section 4.4) has no implementation under `src/`; only its contract is
given.  Admin-only (`Forbidden` otherwise); `NotFound` if the submission
does not exist; sets the submission's status to `APPROVED`; sets the
parent recommendation's `progress` to `approved_progress` and recomputes
its `status` from the new progress. -/
def approve (user : UserDoc) (sub_id : String) (approved_progress : Nat)
    (st : Store) : Except Nat Unit × Store :=
  if is_admin user then
    match st.submissions.find? (fun s => s.id == sub_id) with
    | none => (Except.error 404, st)
    | some sub =>
      let subs :=
        st.submissions.map (fun s =>
          if s.id == sub_id then { s with status := "APPROVED" } else s)
      let recs :=
        st.recommendations.map (fun r =>
          if r.id == sub.recommendation_id then
            { r with progress := approved_progress,
                     status := statusOf approved_progress }
          else r)
      (Except.ok (), { recommendations := recs, submissions := subs })
  else (Except.error 403, st)

/-- Modelled from the spec: presence of a `{...}` block in a
free-form generation response (spec section 4.3: "locate the first
balanced `{...}` substring in the response").  This is the weakest
reasonable test — some `{` occurs and is followed by some `}` — so a
response on which it is `false` admits no JSON-object extraction under
any reading of the spec. -/
def hasJsonBlock (s : String) : Bool :=
  ((s.data.dropWhile (fun c => c ≠ '{')).drop 1).contains '}'

/-- Characterisation of `containsList`: it decides contiguous-substring
occurrence, i.e. Python's `need in hay`. -/
theorem containsList_iff (need hay : List Char) :
    containsList need hay = true ↔ ∃ pre post, pre ++ need ++ post = hay := by
  induction hay with
  | nil =>
    constructor
    · intro h
      have hne : need = [] := by
        simpa [containsList, List.isEmpty_iff] using h
      exact ⟨[], [], by simp [hne]⟩
    · rintro ⟨pre, post, h⟩
      rcases List.append_eq_nil.mp h with ⟨h1, -⟩
      rcases List.append_eq_nil.mp h1 with ⟨-, h2⟩
      simp [containsList, h2]
  | cons c t ih =>
    constructor
    · intro h
      have hor : need.isPrefixOf (c :: t) = true ∨ containsList need t = true := by
        simpa [containsList, Bool.or_eq_true] using h
      rcases hor with h1 | h2
      · rcases ( List.isPrefixOf_iff_prefix).mp h1 with ⟨post, hp⟩
        exact ⟨[], post, by simpa using hp⟩
      · rcases ih.mp h2 with ⟨pre, post, hp⟩
        exact ⟨c :: pre, post, by simp [hp]⟩
    · rintro ⟨pre, post, hp⟩
      cases pre with
      | nil =>
        have hpre : need.isPrefixOf (c :: t) = true :=
          ( List.isPrefixOf_iff_prefix).mpr ⟨post, by simpa using hp⟩
        simp [containsList, hpre]
      | cons c' pre' =>
        simp only [List.cons_append, List.cons.injEq] at hp
        have ht : containsList need t = true := ih.mpr ⟨pre', post, hp.2⟩
        simp [containsList, ht]

/-- Concrete non-admin principal whose profile carries the empty slug. -/
def c1_user : UserDoc := ⟨"x@y.cr", "user", "", "X"⟩

/-- Concrete recommendation owned by a different institution. -/
def c1_rec : Recommendation := ⟨"R2", "Ministerio de Salud", "d", 0, "Pending"⟩

/-- Concrete one-recommendation store for the empty-slug evaluation. -/
def c1_store : Store := ⟨[c1_rec], []⟩

/-- C1: the claim says a non-admin with an empty `institution_slug` gets
the EMPTY set from the listing.  Evaluating the embedded
`list_recommendations` at such a principal shows the code returns the
FULL collection instead: Python's `"" in s` is true for every `s`, so the
empty slug matches every recommendation. -/
theorem C1_empty_slug_full_access :
    is_admin c1_user = false ∧
    c1_user.inst_slug = "" ∧
    (list_recommendations c1_user c1_store).1 = c1_store.recommendations ∧
    c1_store.recommendations ≠ [] := by decide

/-- Concrete non-admin principal of tenant `justicia`. -/
def c2_user : UserDoc := ⟨"u@j.cr", "user", "justicia", "J"⟩

/-- Concrete recommendation of a foreign tenant. -/
def c2_rec : Recommendation := ⟨"R2", "Ministerio de Salud", "d", 40, "In Progress"⟩

/-- Concrete store holding only the foreign tenant's recommendation. -/
def c2_store : Store := ⟨[c2_rec], []⟩

/-- C2: the claim says every read path, report generation included, shows
a non-admin only the recommendations matching their slug.  Evaluating the
embedded `generate_pdf` for a `justicia` user over a store holding only a
`Ministerio de Salud` recommendation shows that recommendation's id,
institution and progress in the rendered report even though its
institution does not contain the caller's slug: the report path applies
no visibility filter. -/
theorem C2_report_leaks_foreign_tenant :
    is_admin c2_user = false ∧
    strContains (pyLower c2_rec.institution) (pyLower c2_user.inst_slug) = false ∧
    "[R2] Ministerio de Salud" ∈ (generate_pdf c2_user c2_store).1 ∧
    "Avance: 40%" ∈ (generate_pdf c2_user c2_store).1 := by decide

/-- C3: admins receive the recommendation set unchanged; a non-admin with
a non-empty slug receives exactly the recommendations whose lower-cased
institution contains the lower-cased slug as a contiguous substring. -/
theorem C3_visibility_filter (u : UserDoc) (st : Store) :
    (is_admin u = true → (list_recommendations u st).1 = st.recommendations) ∧
    (is_admin u = false → u.inst_slug ≠ "" →
      ∀ r : Recommendation, r ∈ (list_recommendations u st).1 ↔
        r ∈ st.recommendations ∧
        ∃ pre post : List Char,
          pre ++ (pyLower u.inst_slug).data ++ post = (pyLower r.institution).data) := by
  constructor
  · intro h
    simp [list_recommendations, h]
  · intro h _ r
    simp [list_recommendations, h, List.mem_filter, strContains, containsList_iff]

/-- Concrete admin principal for the C3 witness. -/
def c3_admin : UserDoc := ⟨"a@i.cr", "admin", "all", "A"⟩

/-- Concrete `justicia` principal for the C3 witness. -/
def c3_user : UserDoc := ⟨"u@j.cr", "user", "justicia", "J"⟩

/-- Concrete matching recommendation for the C3 witness. -/
def c3_rec : Recommendation := ⟨"R1", "Ministerio de Justicia", "meta", 0, "Pending"⟩

/-- Concrete store for the C3 witness. -/
def c3_store : Store := ⟨[c3_rec], []⟩

/-- Witness for C3 at concrete inputs: an admin gets the store unchanged,
and for the `justicia` user membership of the `Ministerio de Justicia`
recommendation is equivalent to the substring condition. -/
theorem C3_visibility_filter_witness :
    (list_recommendations c3_admin c3_store).1 = c3_store.recommendations ∧
    (c3_rec ∈ (list_recommendations c3_user c3_store).1 ↔
      c3_rec ∈ c3_store.recommendations ∧
      ∃ pre post : List Char,
        pre ++ (pyLower c3_user.inst_slug).data ++ post = (pyLower c3_rec.institution).data) :=
  ⟨(C3_visibility_filter c3_admin c3_store).1 rfl,
   (C3_visibility_filter c3_user c3_store).2 rfl (by decide) c3_rec⟩

/-- C4: a valid bearer credential whose email has no profile document is
answered with 401 (`Token inválido`), not 403: the 403 raised inside the
`try` block of `get_current_user` is swallowed by its catch-all `except`
clause, which re-raises 401. -/
theorem C4_missing_profile_gets_401 :
    get_current_user (some "Bearer tok-123") (TokenCheck.valid "user@inst.cr") []
      = Except.error 401 ∧
    (401 : Nat) ≠ 403 :=
  ⟨rfl, by decide⟩

/-- Concrete uploading principal for the C5 evaluation. -/
def c5_user : UserDoc := ⟨"u@j.cr", "user", "justicia", "J"⟩

/-- Concrete store with an empty recommendation catalog. -/
def c5_store : Store := ⟨[], []⟩

/-- C5: the claim says uploading evidence against a nonexistent
recommendation id fails `NotFound` with the submission store unchanged.
Evaluating the embedded `upload_evidence` with id `NOPE` over an empty
recommendation catalog shows the handler succeeds and creates the
submission document anyway: the code performs no existence check. -/
theorem C5_upload_ok_without_recommendation :
    c5_store.recommendations.find? (fun r => r.id == "NOPE") = none ∧
    (upload_evidence "NOPE" "logro" "f.pdf" c5_user (StorageResult.ok "u") "S1" 7 c5_store).1
      = Except.ok "Evidencia subida correctamente" ∧
    (upload_evidence "NOPE" "logro" "f.pdf" c5_user (StorageResult.ok "u") "S1" 7 c5_store).2.submissions
      = [⟨"S1", "NOPE", "u@j.cr", "logro", "u", "PENDIENTE", 7⟩] :=
  ⟨rfl, rfl, rfl⟩

/-- Auxiliary: mapping a keyed update `fun x => if p x then f x else x`
over a list rewrites the result of `find? p`, provided the update
preserves the key predicate. -/
theorem find?_map_keyed {α : Type} (p : α → Bool) (f : α → α)
    (hf : ∀ a, p (f a) = p a) :
    ∀ (l : List α) (a : α), l.find? p = some a →
      (l.map (fun x => if p x then f x else x)).find? p = some (f a) := by
  intro l
  induction l with
  | nil => intro a h; simp at h
  | cons x xs ih =>
    intro a h
    by_cases hx : p x
    · rw [List.find?_cons_of_pos _ hx] at h
      have hax : x = a := by injection h
      subst hax
      have hfa : p (f x) := by rw [hf]; exact hx
      rw [List.map_cons, if_pos hx, List.find?_cons_of_pos _ hfa]
    · rw [List.find?_cons_of_neg _ hx] at h
      have hrec := ih a h
      rw [List.map_cons, if_neg hx, List.find?_cons_of_neg _ hx]
      exact hrec

/-- C6: approving an existing submission with an in-range progress value
and then reading its parent recommendation shows the approved progress
and a status consistent with the mapping (0 to Pending, 1 to 99 to In
Progress, 100 to Completed); the submission's status becomes APPROVED.
Proved against the spec-modelled `approve`, since the Review/Approval
Engine has no implementation under `src/`. -/
theorem C6_approve_updates_parent (u : UserDoc) (sid : String) (p : Nat)
    (st : Store) (sub : Submission) (rec : Recommendation)
    (hadm : is_admin u = true)
    (hsub : st.submissions.find? (fun s => s.id == sid) = some sub)
    (hrec : st.recommendations.find? (fun r => r.id == sub.recommendation_id) = some rec)
    (hp : p ≤ 100) :
    (approve u sid p st).1 = Except.ok () ∧
    ((approve u sid p st).2.recommendations.find?
        (fun r => r.id == sub.recommendation_id)
      = some { rec with progress := p, status := statusOf p }) ∧
    ((approve u sid p st).2.submissions.find? (fun s => s.id == sid)
      = some { sub with status := "APPROVED" }) ∧
    (p = 0 → statusOf p = "Pending") ∧
    (1 ≤ p → p ≤ 99 → statusOf p = "In Progress") ∧
    (p = 100 → statusOf p = "Completed") := by
  have hbody :
      approve u sid p st =
        (Except.ok (),
          { recommendations :=
              st.recommendations.map (fun r =>
                if r.id == sub.recommendation_id then
                  { r with progress := p, status := statusOf p }
                else r),
            submissions :=
              st.submissions.map (fun s =>
                if s.id == sid then { s with status := "APPROVED" } else s) }) := by
    simp [approve, hadm, hsub]
  refine ⟨by rw [hbody], ?_, ?_, ?_, ?_, ?_⟩
  · rw [hbody]
    exact find?_map_keyed (fun r => r.id == sub.recommendation_id)
      (fun r => { r with progress := p, status := statusOf p })
      (fun a => rfl) st.recommendations rec hrec
  · rw [hbody]
    exact find?_map_keyed (fun s => s.id == sid)
      (fun s => { s with status := "APPROVED" })
      (fun a => rfl) st.submissions sub hsub
  · intro h; simp [statusOf, h]
  · intro h1 h2
    have h0 : ¬ p = 0 := by omega
    have hlt : p < 100 := by omega
    simp [statusOf, h0, hlt]
  · intro h
    subst h
    simp [statusOf]

/-- Concrete admin for the C6 witness. -/
def c6_admin : UserDoc := ⟨"a@i.cr", "admin", "all", "A"⟩

/-- Concrete parent recommendation for the C6 witness. -/
def c6_rec : Recommendation := ⟨"CAT-09", "Ministerio de Justicia", "meta", 0, "Pending"⟩

/-- Concrete pending submission for the C6 witness. -/
def c6_sub : Submission := ⟨"S1", "CAT-09", "u@j.cr", "logro", "url", "PENDIENTE", 5⟩

/-- Concrete store for the C6 witness. -/
def c6_store : Store := ⟨[c6_rec], [c6_sub]⟩

/-- Witness for C6 at concrete inputs: approving `S1` with progress 60
makes the parent recommendation read back with progress 60 and status
In Progress, and the submission reads back APPROVED. -/
theorem C6_approve_updates_parent_witness :
    (approve c6_admin "S1" 60 c6_store).1 = Except.ok () ∧
    ((approve c6_admin "S1" 60 c6_store).2.recommendations.find?
        (fun r => r.id == c6_sub.recommendation_id)
      = some { c6_rec with progress := 60, status := statusOf 60 }) ∧
    ((approve c6_admin "S1" 60 c6_store).2.submissions.find? (fun s => s.id == "S1")
      = some { c6_sub with status := "APPROVED" }) ∧
    statusOf 60 = "In Progress" :=
  have h := C6_approve_updates_parent c6_admin "S1" 60 c6_store c6_sub c6_rec
    rfl (by decide) (by decide) (by decide)
  ⟨h.1, h.2.1, h.2.2.1, h.2.2.2.2.1 (by decide) (by decide)⟩

/-- Concrete admin for the C7 theorems. -/
def c7_admin : UserDoc := ⟨"a@i.cr", "admin", "all", "A"⟩

/-- Concrete non-admin for the C7 witness. -/
def c7_user : UserDoc := ⟨"u@j.cr", "user", "justicia", "J"⟩

/-- Concrete pending submission shared by the two C7 stores. -/
def c7_sub : Submission := ⟨"S1", "CAT-09", "u@j.cr", "logro", "url", "PENDIENTE", 5⟩

/-- Store in which the parent recommendation has progress 0. -/
def c7_store0 : Store := ⟨[⟨"CAT-09", "Ministerio de Justicia", "meta", 0, "Pending"⟩], [c7_sub]⟩

/-- Store identical to `c7_store0` except the parent's progress is 60. -/
def c7_store60 : Store := ⟨[⟨"CAT-09", "Ministerio de Justicia", "meta", 60, "In Progress"⟩], [c7_sub]⟩

/-- C7 counterexample: for an admin, `list_pending` yields the identical
nonempty response over two stores that differ in the parent
recommendation's current progress (0 versus 60), so the returned entries
cannot be enriched with the parent's display id and current progress as
the claim states: the handler never reads the recommendation
collection. -/
theorem C7_pending_not_enriched :
    is_admin c7_admin = true ∧
    (list_pending c7_admin c7_store0).1 = (list_pending c7_admin c7_store60).1 ∧
    (list_pending c7_admin c7_store0).1 = Except.ok [c7_sub] ∧
    c7_store0.recommendations.map Recommendation.progress = [0] ∧
    c7_store60.recommendations.map Recommendation.progress = [60] :=
  ⟨rfl, rfl, rfl, rfl, rfl⟩

/-- C7 amended: `list_pending` answers 403 to every non-admin; to an
admin it returns exactly the stored submissions whose status is
PENDIENTE, as stored, with no enrichment from the recommendation
collection. -/
theorem C7_list_pending_behavior (u : UserDoc) (st : Store) :
    (is_admin u = false → (list_pending u st).1 = Except.error 403) ∧
    (is_admin u = true →
      (list_pending u st).1
        = Except.ok (st.submissions.filter (fun s => s.status == "PENDIENTE")) ∧
      ∀ s : Submission,
        s ∈ st.submissions.filter (fun s => s.status == "PENDIENTE") ↔
          s ∈ st.submissions ∧ s.status = "PENDIENTE") := by
  constructor
  · intro h
    simp [list_pending, h]
  · intro h
    refine ⟨by simp [list_pending, h], ?_⟩
    intro s
    simp [List.mem_filter]

/-- Witness for C7 amended at concrete inputs. -/
theorem C7_list_pending_behavior_witness :
    (list_pending c7_user c7_store0).1 = Except.error 403 ∧
    (list_pending c7_admin c7_store0).1
      = Except.ok (c7_store0.submissions.filter (fun s => s.status == "PENDIENTE")) :=
  ⟨(C7_list_pending_behavior c7_user c7_store0).1 rfl,
   ((C7_list_pending_behavior c7_admin c7_store0).2 rfl).1⟩

/-- Concrete store for the C8 evaluations. -/
def c8_store : Store := ⟨[⟨"R1", "MJ", "meta", 0, "Pending"⟩], []⟩

/-- C8 counterexample: on a generation response containing no `{...}`
block at all, the embedded `analyze_barrier` succeeds with the raw
response text instead of failing: the handler performs no JSON extraction
whatsoever. -/
theorem C8_no_json_still_ok :
    hasJsonBlock "Propongo tres soluciones." = false ∧
    analyze_barrier "gemini-2.5-flash" "barrera" (GenResult.ok "Propongo tres soluciones.") c8_store
      = (Except.ok "Propongo tres soluciones.", c8_store) ∧
    ∀ n : Nat,
      (analyze_barrier "gemini-2.5-flash" "barrera"
        (GenResult.ok "Propongo tres soluciones.") c8_store).1 ≠ Except.error n := by
  refine ⟨by decide, rfl, ?_⟩
  intro n h
  have h' : (Except.ok "Propongo tres soluciones." : Except Nat String)
      = Except.error n := h
  exact Except.noConfusion h'

/-- C8 amended: the analyze handler returns the raw generation text on
every successful generation (JSON or not) when the model name is set,
answers 500 exactly when the generation call fails or the model name is
empty, and leaves the store unchanged in every case. -/
theorem C8_analyze_behavior (modelName text t : String) (st : Store) :
    analyze_barrier modelName text GenResult.failed st = (Except.error 500, st) ∧
    (modelName ≠ "" →
      analyze_barrier modelName text (GenResult.ok t) st = (Except.ok t, st)) ∧
    (analyze_barrier modelName text (GenResult.ok t) st).2 = st ∧
    (analyze_barrier modelName text GenResult.failed st).2 = st := by
  refine ⟨?_, ?_, ?_, ?_⟩
  · by_cases h : modelName = "" <;> simp [analyze_barrier, h]
  · intro h
    simp [analyze_barrier, h]
  · by_cases h : modelName = "" <;> simp [analyze_barrier, h]
  · by_cases h : modelName = "" <;> simp [analyze_barrier, h]

/-- Witness for C8 amended at concrete inputs. -/
theorem C8_analyze_behavior_witness :
    analyze_barrier "gemini-2.5-flash" "b" (GenResult.ok "hola") c8_store
      = (Except.ok "hola", c8_store) :=
  (C8_analyze_behavior "gemini-2.5-flash" "b" "hola" c8_store).2.1 (by decide)

/-- C9: across the embedded API surface, only `upload_evidence` writes to
the store: every other handler returns the store unchanged for all
inputs, a failed upload leaves the store unchanged, and a successful
upload leaves the recommendation collection unchanged and appends exactly
one new submission document. -/
theorem C9_only_upload_writes (u : UserDoc) (st : Store) (mn txt : String)
    (g : GenResult) (rid desc fn nid url : String) (now : Nat) :
    (auth_me u st).2 = st ∧
    (list_recommendations u st).2 = st ∧
    (analyze_barrier mn txt g st).2 = st ∧
    (list_pending u st).2 = st ∧
    (generate_pdf u st).2 = st ∧
    (upload_evidence rid desc fn u StorageResult.failed nid now st).2 = st ∧
    (upload_evidence rid desc fn u (StorageResult.ok url) nid now st).2.recommendations
      = st.recommendations ∧
    (upload_evidence rid desc fn u (StorageResult.ok url) nid now st).2.submissions
      = st.submissions ++ [⟨nid, rid, u.email, desc, url, "PENDIENTE", now⟩] := by
  refine ⟨rfl, ?_, ?_, ?_, rfl, rfl, rfl, rfl⟩
  · by_cases h : is_admin u <;> simp [list_recommendations, h]
  · by_cases h : mn = "" <;> cases g <;> simp [analyze_barrier, h]
  · by_cases h : is_admin u <;> simp [list_pending, h]

/-- C10: in `upload_evidence` the storage write precedes the submission
write: a failed storage upload makes the whole operation fail with 500
and leaves the submission collection untouched, and on success the
created submission document records the URL the storage call returned. -/
theorem C10_storage_failure_no_submission (rid desc fn nid url : String)
    (u : UserDoc) (now : Nat) (st : Store) :
    upload_evidence rid desc fn u StorageResult.failed nid now st
      = (Except.error 500, st) ∧
    (∀ s : Submission,
      s ∈ (upload_evidence rid desc fn u StorageResult.failed nid now st).2.submissions ↔
        s ∈ st.submissions) ∧
    (upload_evidence rid desc fn u (StorageResult.ok url) nid now st).2.submissions
      = st.submissions ++ [⟨nid, rid, u.email, desc, url, "PENDIENTE", now⟩] :=
  ⟨rfl, fun _ => Iff.rfl, rfl⟩

end SIIS
